import Mathlib

/-!
Shallow embedding of the diffusivity calculator (`src/main.py`).

Numbers are modelled as exact rationals.  The floating-point library
operations that have no exact rational counterpart (`math.sqrt` and the
fractional powers `** 1.5`, `** (1/3)`, `** (2/3)`) are abstracted as an
explicit record of operations (`FloatOps`) that is passed to every engine
function; theorems quantify over the record, so they hold for any
interpretation of those operations, including the identity interpretation
`idOps` used to evaluate witnesses.
-/

namespace Difussi

/-- Abstract interpretations of the irrational float operations used by the
source: `sqrt x` for `math.sqrt(x)` / `x ** 0.5`, `cbrt x` for `x ** (1/3)`,
`pow15 x` for `x ** 1.5` and `pow23 x` for `x ** (2/3)`. -/
structure FloatOps where
  sqrt : ℚ → ℚ
  cbrt : ℚ → ℚ
  pow15 : ℚ → ℚ
  pow23 : ℚ → ℚ

/-- The identity interpretation, used to evaluate concrete witnesses. -/
def idOps : FloatOps := ⟨id, id, id, id⟩

/-- Model of `class Substance`: one chemical species. -/
structure Substance where
  name : String
  molecular_mass : ℚ
  critical_volume : ℚ
  critical_temperature : ℚ
  proportion : ℚ

/-- Model of `Substance.calculate_colision_diameter`: `0.841 * critical_volume ** (1/3)`.
The source computes this once in the constructor and stores it; since the
object is never mutated, recomputing it on demand is equivalent. -/
def Substance.calculate_colision_diameter (ops : FloatOps) (s : Substance) : ℚ :=
  0.841 * ops.cbrt s.critical_volume

/-- Model of `class BinaryMixture`: two substances plus conditions. -/
structure BinaryMixture where
  substance1 : Substance
  substance2 : Substance
  temperature : ℚ
  pressure : ℚ

/-- Model of `BinaryMixture.table_index`: the fixed (T*, Omega_D) collision-integral
table.  It is an instance attribute in the source but is the same constant
for every instance. -/
def table_index : List (ℚ × ℚ) :=
  [(0.30, 2.662), (0.35, 2.476), (0.40, 2.318), (0.45, 2.184), (0.50, 2.066),
   (0.55, 1.966), (0.60, 1.877), (0.65, 1.798), (0.70, 1.729), (0.75, 1.667),
   (0.80, 1.612), (0.85, 1.562), (0.90, 1.517), (0.95, 1.476), (1.00, 1.439),
   (1.05, 1.406), (1.10, 1.375), (1.15, 1.346), (1.20, 1.320), (1.25, 1.296),
   (1.30, 1.273), (1.35, 1.253), (1.40, 1.233), (1.45, 1.215), (1.50, 1.198),
   (1.55, 1.182), (1.60, 1.167), (1.65, 1.153), (1.70, 1.140), (1.80, 1.116),
   (1.85, 1.105), (1.90, 1.094), (1.95, 1.084), (2.00, 1.075), (2.10, 1.057),
   (2.20, 1.041), (2.30, 1.026), (2.40, 1.012), (2.50, 0.9996), (2.60, 0.9878),
   (2.70, 0.9770), (2.80, 0.9672), (2.90, 0.9576), (3.00, 0.9490), (3.10, 0.9406),
   (3.20, 0.9328), (3.30, 0.9256), (3.40, 0.9186), (3.50, 0.9120), (3.60, 0.9058),
   (3.70, 0.8998), (3.80, 0.8942), (3.90, 0.8888), (4.00, 0.8836), (4.10, 0.8788),
   (4.20, 0.8740), (4.30, 0.8694), (4.40, 0.8652), (4.50, 0.8610), (4.60, 0.8568),
   (4.70, 0.8530), (4.80, 0.8492), (4.90, 0.8456), (5.0, 0.8422), (6.0, 0.8124),
   (7.0, 0.7896), (8.0, 0.7712), (10.0, 0.7424), (20.0, 0.6640), (30.0, 0.6232),
   (40.0, 0.5960), (50.0, 0.5756), (60.0, 0.5596), (70.0, 0.5464), (80.0, 0.5352),
   (90.0, 0.5256)]

/-- The scan loop of `calculate_difusivity_integral`: walk the table keeping
the previous entry; at the first entry whose first column is `≥ t_star`,
return that entry's value if it is the first row, otherwise interpolate
linearly with the previous row; if the whole table is exhausted, return the
last value of the table. -/
def interpolate_scan (t_star : ℚ) : List (ℚ × ℚ) → Option (ℚ × ℚ) → ℚ
  | [], _ => ((table_index.getLast?).map Prod.snd).getD 0
  | e :: rest, prev =>
    if t_star ≤ e.1 then
      match prev with
      | none => e.2
      | some p => p.2 + (e.2 - p.2) * (t_star - p.1) / (e.1 - p.1)
    else interpolate_scan t_star rest (some e)

/-- The reduced temperature computed by `calculate_difusivity_integral`:
`T / math.sqrt(T_cA * T_cB * (0.77 ** 2))`. -/
def BinaryMixture.t_star (ops : FloatOps) (m : BinaryMixture) : ℚ :=
  m.temperature /
    ops.sqrt (m.substance1.critical_temperature * m.substance2.critical_temperature *
      ((0.77 : ℚ) ^ 2))

/-- Model of `BinaryMixture.calculate_difusivity_integral`: compute T* and look it up
in the table with clamping below/above and linear interpolation between. -/
def BinaryMixture.calculate_difusivity_integral (ops : FloatOps) (m : BinaryMixture) : ℚ :=
  interpolate_scan (m.t_star ops) table_index none

/-- Model of `BinaryMixture.calculate_colision_diameter`: arithmetic mean of the two
substances' collision diameters. -/
def BinaryMixture.calculate_colision_diameter (ops : FloatOps) (m : BinaryMixture) : ℚ :=
  (m.substance1.calculate_colision_diameter ops + m.substance2.calculate_colision_diameter ops) / 2

/-- Model of `BinaryMixture.calculate_binary_diffusivity` (Chapman-Enskog):
`0.001858 * T ** 1.5 * (1/M_A + 1/M_B) ** 0.5 / (P * Omega_D * sigma_AB ** 2)`. -/
def BinaryMixture.calculate_binary_diffusivity (ops : FloatOps) (m : BinaryMixture) : ℚ :=
  0.001858 * ops.pow15 m.temperature *
    ops.sqrt (1 / m.substance1.molecular_mass + 1 / m.substance2.molecular_mass) /
    (m.pressure * m.calculate_difusivity_integral ops * m.calculate_colision_diameter ops ^ 2)

/-- Model of `class Mixture`: a target substance, the full substance
collection and the shared conditions. -/
structure Mixture where
  target_substance : Substance
  substances : List Substance
  temperature : ℚ
  pressure : ℚ

/-- Model of `Mixture.calculate_mixture_diffusivity`: with exactly two substances,
delegate to the binary engine on `substances[0]`, `substances[1]`; otherwise
accumulate `y_prime / D_AX` over every substance whose name differs from the
target's and return `1 / sum` when the sum is positive, else `0`. -/
def Mixture.calculate_mixture_diffusivity (ops : FloatOps) (m : Mixture) : ℚ :=
  if h : m.substances.length = 2 then
    BinaryMixture.calculate_binary_diffusivity ops
      ⟨m.substances.get ⟨0, by omega⟩, m.substances.get ⟨1, by omega⟩,
        m.temperature, m.pressure⟩
  else
    let target_proportion := m.target_substance.proportion
    let sum_terms := m.substances.foldl
      (fun acc substance =>
        if substance.name ≠ m.target_substance.name then
          acc + (substance.proportion / (1 - target_proportion)) /
            BinaryMixture.calculate_binary_diffusivity ops
              ⟨m.target_substance, substance, m.temperature, m.pressure⟩
        else acc) 0
    if 0 < sum_terms then 1 / sum_terms else 0

/-- Model of `scheibel`: `K * T / (muB * Va ** (1/3))`, with `K` chosen by the
three-way rule on `Va` against `2*Vb` and `2.5*Vb`. -/
def scheibel (ops : FloatOps) (T muB Va Vb : ℚ) : ℚ :=
  let K : ℚ :=
    if Va < 2 * Vb then 18.9e-8
    else if Va < 2.5 * Vb then 17.5e-8
    else 8.2e-8 * (1 + ops.pow23 (3 * Vb / Va))
  K * T / (muB * ops.cbrt Va)

/-- Model of `tyne_extrapolation`: `D_AB(T1) = D_AB(T2) * ((Tc - T2)/(Tc - T1)) ** n`,
with the exponent chosen by the if/elif/else chain on `deltaHv`; the final
`else` branch yields `n = 10`. -/
def tyne_extrapolation (DAB_T2 T1 T2 Tc deltaHv : ℚ) : ℚ × ℕ :=
  let n : ℕ :=
    if 7900 ≤ deltaHv ∧ deltaHv < 30000 then 3
    else if 30000 ≤ deltaHv ∧ deltaHv < 39000 then 4
    else if 39000 ≤ deltaHv ∧ deltaHv < 46000 then 6
    else if 46000 ≤ deltaHv ∧ deltaHv < 50000 then 8
    else 10
  (DAB_T2 * ((Tc - T2) / (Tc - T1)) ^ n, n)

/-- Python's `str.lower()`: lowercase every character of the string. -/
def lower (s : String) : String := ⟨s.data.map Char.toLower⟩

/-- Model of `convert_temperature_to_kelvin`: Celsius and Fahrenheit (single letter or
full word, case-insensitive) are converted; any other unit string is
returned unchanged. -/
def convert_temperature_to_kelvin (temp : ℚ) (unit : String) : ℚ :=
  if lower unit = "c" ∨ lower unit = "celsius" then temp + 273.15
  else if lower unit = "f" ∨ lower unit = "fahrenheit" then (temp - 32) * 5 / 9 + 273.15
  else temp

/-- Model of `convert_pressure_to_atm`: fixed conversion-factor dictionary with a
fail-open default factor of 1. -/
def convert_pressure_to_atm (pressure : ℚ) (unit : String) : ℚ :=
  let conversions : List (String × ℚ) :=
    [("atm", 1), ("bar", 0.986923), ("psi", 0.068046), ("pa", 0.00000986923),
     ("kpa", 0.00986923), ("mmhg", 0.00131579), ("torr", 0.00131579)]
  pressure * (((conversions.find? (fun kv => decide (kv.1 = lower unit))).map Prod.snd).getD 1)

/-- One raw substance record of the `/calculate` request payload. -/
structure SubstanceData where
  name : String
  molecular_mass : ℚ
  critical_volume : ℚ
  critical_temperature : ℚ
  temp_unit : String
  proportion : ℚ

/-- The success payload of the `/calculate` endpoint. -/
structure GasResult where
  diffusivity : ℚ
  units : String
  temperature_k : ℚ
  pressure_atm : ℚ
  target_substance : String
  mixture_type : String

/-- The substance-construction loop of the `/calculate` endpoint: build a
`Substance` from each raw record, converting its critical temperature. -/
def build_substances (substances_data : List SubstanceData) : List Substance :=
  substances_data.map (fun sd =>
    ⟨sd.name, sd.molecular_mass, sd.critical_volume,
      convert_temperature_to_kelvin sd.critical_temperature sd.temp_unit, sd.proportion⟩)

/-- The target-identification part of the same loop: keep the last built
substance whose name equals the target name, `none` if there is no match. -/
def find_target (substances : List Substance) (target_substance_name : String) :
    Option Substance :=
  substances.foldl (fun acc s => if s.name = target_substance_name then some s else acc) none

/-- Model of `calculate_diffusivity` (the `/calculate` endpoint): convert units, build
the `Substance` objects (keeping the last one whose name matches the target
name, as the source loop does), validate that the target was found and that
the proportions sum to 1 within an absolute tolerance of 0.001, then run the
mixture engine and assemble the response. -/
def calculate_diffusivity (ops : FloatOps) (substances_data : List SubstanceData)
    (target_substance_name : String) (temperature_in : ℚ) (temp_unit : String)
    (pressure_in : ℚ) (pressure_unit : String) : Except String GasResult :=
  let temperature := convert_temperature_to_kelvin temperature_in temp_unit
  let pressure := convert_pressure_to_atm pressure_in pressure_unit
  let substances : List Substance := build_substances substances_data
  match find_target substances target_substance_name with
  | none =>
    Except.error ("Sustancia objetivo \x22" ++ target_substance_name ++
      "\x22 no encontrada en la lista")
  | some target =>
    let total_proportion := (substances.map Substance.proportion).sum
    if |total_proportion - 1| > 0.001 then
      Except.error "Las proporciones deben sumar 1.0"
    else
      Except.ok
        ⟨Mixture.calculate_mixture_diffusivity ops ⟨target, substances, temperature, pressure⟩,
          "cm²/s", temperature, pressure, target_substance_name,
          if substances.length = 2 then "binaria" else "multicomponente"⟩

/-- Example substance used for concrete witnesses: its critical temperature
`100/77` makes the reduced-temperature denominator argument equal `1`. -/
def subEx (nm : String) (y : ℚ) : Substance := ⟨nm, 1, 1, 100 / 77, y⟩

/-- Example binary mixture at temperature `T`; its reduced temperature under
`idOps` is `T` itself. -/
def binEx (T : ℚ) : BinaryMixture := ⟨subEx "A" 0.5, subEx "B" 0.5, T, 1⟩

/-- Example three-substance mixture for the multicomponent witness. -/
def mixEx : Mixture := ⟨subEx "A" 0.5, [subEx "A" 0.5, subEx "B" 0.3, subEx "C" 0.2], 1, 1⟩

/-- Example raw payload record for endpoint witnesses. -/
def sdEx (nm : String) (y : ℚ) : SubstanceData := ⟨nm, 1, 1, 100 / 77, "k", y⟩

/-- Two-substance payload whose proportions sum to exactly 1. -/
def dataBin : List SubstanceData := [sdEx "A" 0.5, sdEx "B" 0.5]

/-- Three-substance payload whose proportions sum to 1.0005. -/
def dataPass : List SubstanceData := [sdEx "A" 0.4, sdEx "B" 0.35, sdEx "C" 0.2505]

/-- Two-substance payload whose proportions sum to 1.01. -/
def dataFail : List SubstanceData := [sdEx "A" 0.5, sdEx "B" 0.51]

/-! ### Helper lemmas about the table scan -/

theorem interpolate_scan_nil (t : ℚ) (prev : Option (ℚ × ℚ)) :
    interpolate_scan t [] prev = 0.5256 := rfl

theorem interpolate_scan_skip (t : ℚ) (e : ℚ × ℚ) (rest : List (ℚ × ℚ))
    (prev : Option (ℚ × ℚ)) (h : e.1 < t) :
    interpolate_scan t (e :: rest) prev = interpolate_scan t rest (some e) := by
  simp only [interpolate_scan]
  rw [if_neg (not_le.mpr h)]

theorem interpolate_scan_hit_none (t : ℚ) (e : ℚ × ℚ) (rest : List (ℚ × ℚ)) (h : t ≤ e.1) :
    interpolate_scan t (e :: rest) none = e.2 := by
  simp only [interpolate_scan]
  rw [if_pos h]

theorem interpolate_scan_hit_some (t : ℚ) (e p : ℚ × ℚ) (rest : List (ℚ × ℚ)) (h : t ≤ e.1) :
    interpolate_scan t (e :: rest) (some p) =
      p.2 + (e.2 - p.2) * (t - p.1) / (e.1 - p.1) := by
  simp only [interpolate_scan]
  rw [if_pos h]

theorem interpolate_scan_append (t : ℚ) :
    ∀ (l1 l2 : List (ℚ × ℚ)) (prev : Option (ℚ × ℚ)), (∀ e ∈ l1, e.1 < t) →
      interpolate_scan t (l1 ++ l2) prev = interpolate_scan t l2 ((l1.getLast?).or prev)
  | [], l2, prev, _ => by simp
  | e :: l1, l2, prev, h => by
    rw [List.cons_append, interpolate_scan_skip t e _ prev (h e (List.mem_cons_self e _)),
      interpolate_scan_append t l1 l2 (some e) (fun x hx => h x (List.mem_cons_of_mem e hx))]
    cases l1 with
    | nil => simp
    | cons f l1 =>
      rw [List.getLast?_cons_cons]
      cases hl : (f :: l1).getLast? with
      | none => simp at hl
      | some y => rfl

/-! ### Claim theorems -/

/-- C3 counterexample: the claim says an enthalpy below 7900 falls through
the step function with no exponent produced (an input-domain error), but the
source's final `else` branch catches it and produces the exponent 10, and a
diffusivity is returned. -/
theorem tyne_below_7900_cx :
    tyne_extrapolation 1 300 310 500 5000 = (((500 - 310) / (500 - 300) : ℚ) ^ 10, 10) := by
  norm_num [tyne_extrapolation]

/-- C3 (amended): the Tyne extrapolation returns
`DAB_T2 * ((Tc-T2)/(Tc-T1))^n` with `n = 3` on `[7900, 30000)`, `4` on
`[30000, 39000)`, `6` on `[39000, 46000)`, `8` on `[46000, 50000)`, and `10`
both for `deltaHv ≥ 50000` and for `deltaHv < 7900` (the final `else`
catches everything that no earlier interval matched). -/
theorem tyne_exponent_rule (DAB_T2 T1 T2 Tc dHv : ℚ) :
    ((tyne_extrapolation DAB_T2 T1 T2 Tc dHv).1 =
      DAB_T2 * ((Tc - T2) / (Tc - T1)) ^ (tyne_extrapolation DAB_T2 T1 T2 Tc dHv).2)
  ∧ (7900 ≤ dHv → dHv < 30000 → (tyne_extrapolation DAB_T2 T1 T2 Tc dHv).2 = 3)
  ∧ (30000 ≤ dHv → dHv < 39000 → (tyne_extrapolation DAB_T2 T1 T2 Tc dHv).2 = 4)
  ∧ (39000 ≤ dHv → dHv < 46000 → (tyne_extrapolation DAB_T2 T1 T2 Tc dHv).2 = 6)
  ∧ (46000 ≤ dHv → dHv < 50000 → (tyne_extrapolation DAB_T2 T1 T2 Tc dHv).2 = 8)
  ∧ (50000 ≤ dHv → (tyne_extrapolation DAB_T2 T1 T2 Tc dHv).2 = 10)
  ∧ (dHv < 7900 → (tyne_extrapolation DAB_T2 T1 T2 Tc dHv).2 = 10) := by
  refine ⟨rfl, fun h1 h2 => ?_, fun h1 h2 => ?_, fun h1 h2 => ?_, fun h1 h2 => ?_,
    fun h1 => ?_, fun h1 => ?_⟩ <;> simp only [tyne_extrapolation]
  · rw [if_pos ⟨h1, h2⟩]
  · rw [if_neg (show ¬(7900 ≤ dHv ∧ dHv < 30000) from fun hc => absurd hc.2 (not_lt.mpr h1)),
      if_pos ⟨h1, h2⟩]
  · rw [if_neg (show ¬(7900 ≤ dHv ∧ dHv < 30000) from
        fun hc => absurd hc.2 (not_lt.mpr (le_trans (by norm_num) h1))),
      if_neg (show ¬(30000 ≤ dHv ∧ dHv < 39000) from fun hc => absurd hc.2 (not_lt.mpr h1)),
      if_pos ⟨h1, h2⟩]
  · rw [if_neg (show ¬(7900 ≤ dHv ∧ dHv < 30000) from
        fun hc => absurd hc.2 (not_lt.mpr (le_trans (by norm_num) h1))),
      if_neg (show ¬(30000 ≤ dHv ∧ dHv < 39000) from
        fun hc => absurd hc.2 (not_lt.mpr (le_trans (by norm_num) h1))),
      if_neg (show ¬(39000 ≤ dHv ∧ dHv < 46000) from fun hc => absurd hc.2 (not_lt.mpr h1)),
      if_pos ⟨h1, h2⟩]
  · rw [if_neg (show ¬(7900 ≤ dHv ∧ dHv < 30000) from
        fun hc => absurd hc.2 (not_lt.mpr (le_trans (by norm_num) h1))),
      if_neg (show ¬(30000 ≤ dHv ∧ dHv < 39000) from
        fun hc => absurd hc.2 (not_lt.mpr (le_trans (by norm_num) h1))),
      if_neg (show ¬(39000 ≤ dHv ∧ dHv < 46000) from
        fun hc => absurd hc.2 (not_lt.mpr (le_trans (by norm_num) h1))),
      if_neg (show ¬(46000 ≤ dHv ∧ dHv < 50000) from
        fun hc => absurd hc.2 (not_lt.mpr (le_trans (by norm_num) h1)))]
  · rw [if_neg (show ¬(7900 ≤ dHv ∧ dHv < 30000) from
        fun hc => absurd hc.1 (not_le.mpr h1)),
      if_neg (show ¬(30000 ≤ dHv ∧ dHv < 39000) from
        fun hc => absurd hc.1 (not_le.mpr (lt_of_lt_of_le h1 (by norm_num)))),
      if_neg (show ¬(39000 ≤ dHv ∧ dHv < 46000) from
        fun hc => absurd hc.1 (not_le.mpr (lt_of_lt_of_le h1 (by norm_num)))),
      if_neg (show ¬(46000 ≤ dHv ∧ dHv < 50000) from
        fun hc => absurd hc.1 (not_le.mpr (lt_of_lt_of_le h1 (by norm_num))))]

/-- C3 witness: the spec's sampled exponents. -/
theorem tyne_exponent_rule_witness :
    (tyne_extrapolation 1 300 310 500 8000).2 = 3
  ∧ (tyne_extrapolation 1 300 310 500 35000).2 = 4
  ∧ (tyne_extrapolation 1 300 310 500 60000).2 = 10 :=
  ⟨(tyne_exponent_rule 1 300 310 500 8000).2.1 (by norm_num) (by norm_num),
   (tyne_exponent_rule 1 300 310 500 35000).2.2.1 (by norm_num) (by norm_num),
   (tyne_exponent_rule 1 300 310 500 60000).2.2.2.2.2.1 (by norm_num)⟩

/-- C8: temperature conversion adds 273.15 for Celsius (case-insensitive `c`
or `celsius`), applies `(v - 32) * 5/9 + 273.15` for Fahrenheit
(case-insensitive `f` or `fahrenheit`), and passes every other unit string
through unchanged. -/
theorem temperature_conversion_rule (v : ℚ) (u : String) :
    ((lower u = "c" ∨ lower u = "celsius") →
      convert_temperature_to_kelvin v u = v + 273.15)
  ∧ ((lower u = "f" ∨ lower u = "fahrenheit") →
      convert_temperature_to_kelvin v u = (v - 32) * 5 / 9 + 273.15)
  ∧ (¬(lower u = "c" ∨ lower u = "celsius") → ¬(lower u = "f" ∨ lower u = "fahrenheit") →
      convert_temperature_to_kelvin v u = v) := by
  refine ⟨fun h => ?_, fun h => ?_, fun h1 h2 => ?_⟩
  · rw [convert_temperature_to_kelvin, if_pos h]
  · rw [convert_temperature_to_kelvin, if_neg ?_, if_pos h]
    rcases h with h | h <;> rintro (hc | hc) <;>
      exact absurd (hc.symm.trans h) (by decide)
  · rw [convert_temperature_to_kelvin, if_neg h1, if_neg h2]

/-- C8 witness: 0 °C and 32 °F both map to 273.15 K, and an unknown unit is
passed through unchanged. -/
theorem temperature_conversion_rule_witness :
    convert_temperature_to_kelvin 0 "C" = 273.15
  ∧ convert_temperature_to_kelvin 32 "F" = 273.15
  ∧ convert_temperature_to_kelvin 123 "K" = 123 := by
  refine ⟨?_, ?_, ?_⟩
  · rw [(temperature_conversion_rule 0 "C").1 (Or.inl (by decide))]; norm_num
  · rw [(temperature_conversion_rule 32 "F").2.1 (Or.inl (by decide))]; norm_num
  · exact (temperature_conversion_rule 123 "K").2.2 (by decide) (by decide)

/-- C9: for positive inputs, the Scheibel correlation returns
`K * T / (muB * Va^(1/3))` with `K = 18.9e-8` when `Va < 2*Vb`,
`K = 17.5e-8` when `2*Vb ≤ Va < 2.5*Vb`, and
`K = 8.2e-8 * (1 + (3*Vb/Va)^(2/3))` otherwise. -/
theorem scheibel_branch_rule (ops : FloatOps) (T muB Va Vb : ℚ)
    (hT : 0 < T) (hmu : 0 < muB) (hVa : 0 < Va) (hVb : 0 < Vb) :
    (Va < 2 * Vb → scheibel ops T muB Va Vb = 18.9e-8 * T / (muB * ops.cbrt Va))
  ∧ (2 * Vb ≤ Va → Va < 2.5 * Vb →
      scheibel ops T muB Va Vb = 17.5e-8 * T / (muB * ops.cbrt Va))
  ∧ (2.5 * Vb ≤ Va → scheibel ops T muB Va Vb =
      8.2e-8 * (1 + ops.pow23 (3 * Vb / Va)) * T / (muB * ops.cbrt Va)) := by
  refine ⟨fun h => ?_, fun h1 h2 => ?_, fun h => ?_⟩ <;> simp only [scheibel]
  · rw [if_pos h]
  · rw [if_neg (not_lt.mpr h1), if_pos h2]
  · rw [if_neg (not_lt.mpr (by linarith)), if_neg (not_lt.mpr h)]

/-- C9 witness: the three branches at `Va = 10, 14, 20` with `Vb = 6`. -/
theorem scheibel_branch_rule_witness :
    scheibel idOps 1 1 10 6 = 18.9e-8 * 1 / (1 * idOps.cbrt 10)
  ∧ scheibel idOps 1 1 14 6 = 17.5e-8 * 1 / (1 * idOps.cbrt 14)
  ∧ scheibel idOps 1 1 20 6 = 8.2e-8 * (1 + idOps.pow23 (3 * 6 / 20)) * 1 / (1 * idOps.cbrt 20) :=
  ⟨(scheibel_branch_rule idOps 1 1 10 6 (by norm_num) (by norm_num) (by norm_num)
      (by norm_num)).1 (by norm_num),
   (scheibel_branch_rule idOps 1 1 14 6 (by norm_num) (by norm_num) (by norm_num)
      (by norm_num)).2.1 (by norm_num) (by norm_num),
   (scheibel_branch_rule idOps 1 1 20 6 (by norm_num) (by norm_num) (by norm_num)
      (by norm_num)).2.2 (by norm_num)⟩

/-- C4: with exactly two substances the multicomponent engine returns
exactly the binary engine's value on the same pair, for every interpretation
of the float operations, every pair, and all conditions. -/
theorem mixture_binary_delegation (ops : FloatOps) (target s1 s2 : Substance) (T P : ℚ) :
    Mixture.calculate_mixture_diffusivity ops ⟨target, [s1, s2], T, P⟩ =
      BinaryMixture.calculate_binary_diffusivity ops ⟨s1, s2, T, P⟩ := rfl

/-- C5: binary diffusivity is symmetric in the two substances, for every
interpretation of the float operations: the formula depends on them only
through the sum of inverse molecular masses, the mean collision diameter and
the product of critical temperatures, all symmetric. -/
theorem binary_diffusivity_symm (ops : FloatOps) (A B : Substance) (T P : ℚ) :
    BinaryMixture.calculate_binary_diffusivity ops ⟨A, B, T, P⟩ =
      BinaryMixture.calculate_binary_diffusivity ops ⟨B, A, T, P⟩ := by
  simp only [BinaryMixture.calculate_binary_diffusivity,
    BinaryMixture.calculate_difusivity_integral, BinaryMixture.t_star,
    BinaryMixture.calculate_colision_diameter]
  rw [show A.critical_temperature * B.critical_temperature
      = B.critical_temperature * A.critical_temperature from mul_comm _ _,
    show 1 / A.molecular_mass + 1 / B.molecular_mass
      = 1 / B.molecular_mass + 1 / A.molecular_mass from add_comm _ _,
    show Substance.calculate_colision_diameter ops A + Substance.calculate_colision_diameter ops B
      = Substance.calculate_colision_diameter ops B + Substance.calculate_colision_diameter ops A
      from add_comm _ _]

theorem foldl_terms_eq_sum (tname : String) (g : Substance → ℚ) (l : List Substance) :
    ∀ init : ℚ, l.foldl (fun acc s => if s.name ≠ tname then acc + g s else acc) init
      = init + ((l.filter (fun s => decide (s.name ≠ tname))).map g).sum := by
  induction l with
  | nil => intro init; simp
  | cons a l ih =>
    intro init
    rw [List.foldl_cons, List.filter_cons]
    by_cases h : a.name ≠ tname
    · rw [if_pos h, ih, if_pos (decide_eq_true h), List.map_cons, List.sum_cons, add_assoc]
    · rw [if_neg h, ih, if_neg (fun hd => h (of_decide_eq_true hd))]

/-- C2: with three or more substances and target proportion below one, the
mixture engine accumulates `y_i / (1 - y_target) / D_target_i` over exactly
the substances whose name differs from the target's, and returns the
reciprocal of the accumulated sum, or `0` when the sum is not positive. -/
theorem mixture_multicomponent_formula (ops : FloatOps) (m : Mixture)
    (h3 : 3 ≤ m.substances.length) (hy : m.target_substance.proportion < 1) :
    Mixture.calculate_mixture_diffusivity ops m =
      (if 0 < ((m.substances.filter
            (fun s => decide (s.name ≠ m.target_substance.name))).map
              (fun s => (s.proportion / (1 - m.target_substance.proportion)) /
                BinaryMixture.calculate_binary_diffusivity ops
                  ⟨m.target_substance, s, m.temperature, m.pressure⟩)).sum
        then 1 / ((m.substances.filter
            (fun s => decide (s.name ≠ m.target_substance.name))).map
              (fun s => (s.proportion / (1 - m.target_substance.proportion)) /
                BinaryMixture.calculate_binary_diffusivity ops
                  ⟨m.target_substance, s, m.temperature, m.pressure⟩)).sum
        else 0) := by
  unfold Mixture.calculate_mixture_diffusivity
  rw [dif_neg (by omega)]
  simp only [foldl_terms_eq_sum, zero_add]

theorem mixEx_binary_value (nm : String) (y : ℚ) :
    BinaryMixture.calculate_binary_diffusivity idOps ⟨subEx "A" 0.5, subEx nm y, 1, 1⟩
      = 3716000 / 1017777359 := by
  have hts : BinaryMixture.t_star idOps ⟨subEx "A" 0.5, subEx nm y, 1, 1⟩ = 1 := by
    norm_num [BinaryMixture.t_star, subEx, idOps]
  have hint : BinaryMixture.calculate_difusivity_integral idOps
      ⟨subEx "A" 0.5, subEx nm y, 1, 1⟩ = 1.439 := by
    rw [BinaryMixture.calculate_difusivity_integral, hts]
    norm_num [interpolate_scan, table_index]
  rw [BinaryMixture.calculate_binary_diffusivity, hint]
  norm_num [subEx, idOps, BinaryMixture.calculate_colision_diameter,
    Substance.calculate_colision_diameter]

/-- C2 witness: a concrete three-substance mixture evaluated to its exact
rational diffusivity through the multicomponent formula. -/
theorem mixture_multicomponent_formula_witness :
    Mixture.calculate_mixture_diffusivity idOps mixEx = 3716000 / 1017777359 := by
  rw [mixture_multicomponent_formula idOps mixEx (by decide) (by norm_num [mixEx, subEx])]
  have hfil : mixEx.substances.filter
      (fun s => decide (s.name ≠ mixEx.target_substance.name))
      = [subEx "B" 0.3, subEx "C" 0.2] := rfl
  rw [hfil]
  simp only [List.map_cons, List.map_nil, List.sum_cons, List.sum_nil]
  rw [show mixEx.target_substance = subEx "A" 0.5 from rfl,
    show mixEx.temperature = 1 from rfl, show mixEx.pressure = 1 from rfl,
    mixEx_binary_value "B" 0.3, mixEx_binary_value "C" 0.2]
  norm_num [subEx]

theorem find_target_eq_none (tname : String) :
    ∀ (l : List Substance) (acc : Option Substance),
      l.foldl (fun a s => if s.name = tname then some s else a) acc = none →
      (∀ s ∈ l, s.name ≠ tname) ∧ acc = none := by
  intro l
  induction l with
  | nil => exact fun acc h => ⟨fun s hs => absurd hs (List.not_mem_nil s), h⟩
  | cons a l ih =>
    intro acc h
    rw [List.foldl_cons] at h
    obtain ⟨hall, hacc⟩ := ih _ h
    by_cases ha : a.name = tname
    · rw [if_pos ha] at hacc; cases hacc
    · rw [if_neg ha] at hacc
      refine ⟨fun s hs => ?_, hacc⟩
      rcases List.mem_cons.mp hs with rfl | hs
      · exact ha
      · exact hall s hs

theorem build_substances_proportion (data : List SubstanceData) :
    ((build_substances data).map Substance.proportion) = data.map SubstanceData.proportion := by
  simp only [build_substances, List.map_map]
  rfl

/-- C6: when the target name occurs among the payload's substances, the
endpoint accepts any proportion total within 0.001 of 1 (returning a
computed result) and rejects any total farther than 0.001 from 1 with the
validation error message, before any mixture computation. -/
theorem proportion_tolerance_validation (ops : FloatOps) (data : List SubstanceData)
    (tname : String) (Tin : ℚ) (tu : String) (Pin : ℚ) (pu : String)
    (htarget : tname ∈ data.map SubstanceData.name) :
    (|(data.map SubstanceData.proportion).sum - 1| ≤ 0.001 →
        ∃ r, calculate_diffusivity ops data tname Tin tu Pin pu = Except.ok r)
  ∧ (0.001 < |(data.map SubstanceData.proportion).sum - 1| →
        calculate_diffusivity ops data tname Tin tu Pin pu =
          Except.error "Las proporciones deben sumar 1.0") := by
  obtain ⟨sd, hsd, hname⟩ := List.mem_map.mp htarget
  simp only [calculate_diffusivity]
  cases hfind : find_target (build_substances data) tname with
  | none =>
    exfalso
    obtain ⟨hall, -⟩ := find_target_eq_none tname (build_substances data) none hfind
    exact hall ⟨sd.name, sd.molecular_mass, sd.critical_volume,
        convert_temperature_to_kelvin sd.critical_temperature sd.temp_unit, sd.proportion⟩
      (List.mem_map.mpr ⟨sd, hsd, rfl⟩) hname
  | some target =>
    rw [build_substances_proportion]
    dsimp only
    constructor
    · intro hle
      rw [if_neg (fun hc => (not_lt.mpr hle) hc)]
      exact ⟨_, rfl⟩
    · intro hgt
      rw [if_pos (gt_iff_lt.mpr hgt)]

/-- C6 witness: proportions summing to 1.0005 pass; 1.01 is rejected. -/
theorem proportion_tolerance_validation_witness :
    (∃ r, calculate_diffusivity idOps dataPass "A" 300 "k" 1 "atm" = Except.ok r)
  ∧ calculate_diffusivity idOps dataFail "A" 300 "k" 1 "atm" =
      Except.error "Las proporciones deben sumar 1.0" :=
  ⟨(proportion_tolerance_validation idOps dataPass "A" 300 "k" 1 "atm"
      (by decide)).1 (by norm_num [dataPass, sdEx, abs_le]),
   (proportion_tolerance_validation idOps dataFail "A" 300 "k" 1 "atm"
      (by decide)).2 (by norm_num [dataFail, sdEx, lt_abs])⟩

theorem build_substances_length (data : List SubstanceData) :
    (build_substances data).length = data.length := List.length_map _ _

/-- C7 (amended): every successful gas calculation reports `mixture_type` as
the Spanish string `"binaria"` with exactly two substances and
`"multicomponente"` otherwise (the source does not emit the English strings
the claim names). -/
theorem mixture_type_string (ops : FloatOps) (data : List SubstanceData) (tname : String)
    (Tin : ℚ) (tu : String) (Pin : ℚ) (pu : String) (r : GasResult)
    (h : calculate_diffusivity ops data tname Tin tu Pin pu = Except.ok r) :
    r.mixture_type = if data.length = 2 then "binaria" else "multicomponente" := by
  simp only [calculate_diffusivity] at h
  cases hfind : find_target (build_substances data) tname with
  | none => rw [hfind] at h; exact Except.noConfusion h
  | some target =>
    rw [hfind] at h
    dsimp only at h
    by_cases htol : |((build_substances data).map Substance.proportion).sum - 1| > 0.001
    · rw [if_pos htol] at h; exact Except.noConfusion h
    · rw [if_neg htol] at h
      injection h with h
      rw [← h, show GasResult.mixture_type
          ⟨Mixture.calculate_mixture_diffusivity ops ⟨target, build_substances data,
              convert_temperature_to_kelvin Tin tu, convert_pressure_to_atm Pin pu⟩,
            "cm²/s", convert_temperature_to_kelvin Tin tu, convert_pressure_to_atm Pin pu, tname,
            if (build_substances data).length = 2 then "binaria" else "multicomponente"⟩
          = if (build_substances data).length = 2 then "binaria" else "multicomponente" from rfl,
        build_substances_length]

/-- C7 counterexample: a successful two-substance calculation reports
`mixture_type = "binaria"`, not the string `"binary"` the claim states. -/
theorem mixture_type_string_cx :
    (calculate_diffusivity idOps dataBin "A" 300 "k" 1 "atm").map GasResult.mixture_type
      = Except.ok "binaria" ∧ "binaria" ≠ "binary" := by
  refine ⟨?_, by decide⟩
  simp only [calculate_diffusivity]
  rw [show find_target (build_substances dataBin) "A" = some (subEx "A" 0.5) from rfl]
  dsimp only
  rw [if_neg (show ¬(|((build_substances dataBin).map Substance.proportion).sum - 1| > 0.001)
    from by norm_num [build_substances, dataBin, sdEx])]
  rfl

/-- C7 witness: the amended theorem applied to a concrete successful
two-substance calculation. -/
theorem mixture_type_string_witness :
    GasResult.mixture_type ⟨3716000 / 1017777359, "cm²/s", 1, 1, "A", "binaria"⟩
      = if dataBin.length = 2 then "binaria" else "multicomponente" := by
  refine mixture_type_string idOps dataBin "A" 1 "k" 1 "atm" _ ?_
  simp only [calculate_diffusivity]
  rw [show find_target (build_substances dataBin) "A" = some (subEx "A" 0.5) from rfl]
  dsimp only
  rw [if_neg (show ¬(|((build_substances dataBin).map Substance.proportion).sum - 1| > 0.001)
      from by norm_num [build_substances, dataBin, sdEx]),
    show convert_temperature_to_kelvin 1 "k" = 1 from rfl,
    show convert_pressure_to_atm 1 "atm" = 1 from by
      rw [show convert_pressure_to_atm 1 "atm" = 1 * 1 from rfl]; norm_num,
    show Mixture.calculate_mixture_diffusivity idOps
        ⟨subEx "A" 0.5, build_substances dataBin, 1, 1⟩
      = BinaryMixture.calculate_binary_diffusivity idOps
        ⟨subEx "A" 0.5, subEx "B" 0.5, 1, 1⟩ from rfl,
    mixEx_binary_value "B" 0.5]
  rfl

theorem table_sorted : List.Chain' (fun a b : ℚ × ℚ => a.1 < b.1) table_index := by
  norm_num [table_index]

theorem table_pairwise : List.Pairwise (fun a b : ℚ × ℚ => a.1 < b.1) table_index := by
  haveI : IsTrans (ℚ × ℚ) (fun a b : ℚ × ℚ => a.1 < b.1) :=
    ⟨fun _ _ _ h1 h2 => lt_trans h1 h2⟩
  exact List.chain'_iff_pairwise.mp table_sorted

theorem interpolate_scan_mid (t : ℚ) (i : ℕ) (hi : i + 1 < table_index.length)
    (hlo : (table_index[i]).1 < t) (hhi : t ≤ (table_index[i + 1]).1) :
    interpolate_scan t table_index none =
      (table_index[i]).2 + ((table_index[i + 1]).2 - (table_index[i]).2) *
        (t - (table_index[i]).1) / ((table_index[i + 1]).1 - (table_index[i]).1) := by
  have hi' : i < table_index.length := Nat.lt_of_succ_lt hi
  have hmono := List.pairwise_iff_get.mp table_pairwise
  have hbelow : ∀ e ∈ table_index.take (i + 1), e.1 < t := by
    intro e he
    obtain ⟨j, hj, hget⟩ := List.mem_iff_getElem.mp he
    have hjlen : j < i + 1 := by
      have := hj; rw [List.length_take] at this; omega
    rw [List.getElem_take] at hget
    subst hget
    rcases Nat.lt_or_ge j i with hji | hji
    · exact lt_trans (hmono ⟨j, by omega⟩ ⟨i, hi'⟩ hji) hlo
    · have : j = i := by omega
      subst this
      exact hlo
  have hlast : (table_index.take (i + 1)).getLast? = some (table_index[i]) := by
    rw [List.getLast?_eq_getElem?, List.length_take]
    have hmin : (i + 1) ⊓ table_index.length = i + 1 := min_eq_left (le_of_lt hi)
    rw [hmin, Nat.add_sub_cancel, List.getElem?_take, if_pos (Nat.lt_succ_self i),
      List.getElem?_eq_getElem hi']
  have hdrop : table_index.drop (i + 1) = table_index[i + 1] :: table_index.drop (i + 2) :=
    List.drop_eq_getElem_cons hi
  calc interpolate_scan t table_index none
      = interpolate_scan t (table_index.take (i + 1) ++ table_index.drop (i + 1)) none := by
        rw [List.take_append_drop]
    _ = interpolate_scan t (table_index.drop (i + 1))
          (((table_index.take (i + 1)).getLast?).or none) :=
        interpolate_scan_append t _ _ none hbelow
    _ = interpolate_scan t (table_index[i + 1] :: table_index.drop (i + 2))
          (some (table_index[i])) := by
        rw [hlast, Option.or_none, hdrop]
    _ = (table_index[i]).2 + ((table_index[i + 1]).2 - (table_index[i]).2) *
          (t - (table_index[i]).1) / ((table_index[i + 1]).1 - (table_index[i]).1) :=
        interpolate_scan_hit_some t _ _ _ hhi

/-- C10 counterexample: the collision-integral table has 76 tabulated pairs,
not the 77 the claim states. -/
theorem collision_table_size_cx :
    table_index.length = 76 ∧ table_index.length ≠ 77 := by decide

/-- C10 (amended): the table has 76 entries and, over exact rational
arithmetic, every tabulated pair is a fixed point of the lookup: at a
reduced temperature equal to any anchor the scan returns exactly that
anchor's integral value (the first anchor through the clamp, every later
anchor through interpolation collapsing). -/
theorem collision_table_fixed_points :
    table_index.length = 76 ∧
    ∀ i : Fin table_index.length,
      interpolate_scan (table_index.get i).1 table_index none = (table_index.get i).2 := by
  refine ⟨by decide, fun i => ?_⟩
  rcases i with ⟨i, hilen⟩
  cases i with
  | zero =>
    have h0 : table_index.get ⟨0, hilen⟩ = ((0.30 : ℚ), (2.662 : ℚ)) := rfl
    rw [h0]
    norm_num [interpolate_scan, table_index]
  | succ j =>
    have hj : j + 1 < table_index.length := hilen
    have hlo : (table_index[j]).1 < (table_index[j + 1]).1 := by
      have := List.pairwise_iff_get.mp table_pairwise ⟨j, by omega⟩ ⟨j + 1, hj⟩
        (by simp [Fin.mk_lt_mk])
      simpa [List.get_eq_getElem] using this
    have hget : table_index.get ⟨j + 1, hilen⟩ = table_index[j + 1] := rfl
    rw [hget, interpolate_scan_mid _ j hj hlo (le_refl _)]
    have hne : (table_index[j + 1]).1 - (table_index[j]).1 ≠ 0 :=
      sub_ne_zero.mpr (ne_of_gt hlo)
    rw [mul_div_assoc, div_self hne, mul_one]
    ring

theorem table_le_90 : ∀ e ∈ table_index, e.1 ≤ 90 := by
  intro e he
  obtain ⟨j, hj, rfl⟩ := List.mem_iff_getElem.mp he
  have hlen : table_index.length = 76 := by decide
  have hjget : table_index[j] = table_index.get ⟨j, hj⟩ :=
    (List.get_eq_getElem table_index ⟨j, hj⟩).symm
  rcases Nat.lt_or_ge j 75 with hj75 | hj75
  · have hmono := List.pairwise_iff_get.mp table_pairwise ⟨j, hj⟩ ⟨75, by omega⟩
      (Fin.mk_lt_mk.mpr hj75)
    rw [show table_index.get ⟨75, by omega⟩ = ((90.0 : ℚ), (0.5256 : ℚ)) from rfl] at hmono
    rw [hjget]
    refine le_of_lt (lt_of_lt_of_le hmono (by norm_num))
  · have hj' : j = 75 := by omega
    subst hj'
    rw [hjget, show table_index.get ⟨75, hj⟩ = ((90.0 : ℚ), (0.5256 : ℚ)) from rfl]
    norm_num

/-- C1: for every float-operation interpretation and every binary mixture,
with reduced temperature `T* = T / sqrt(TcA * TcB * 0.77^2)`: a `T*` at or
below the first anchor 0.30 returns 2.662; a `T*` above 90 returns 0.5256
(flat clamp); a `T*` strictly between consecutive anchors `x_i < T* ≤
x_{i+1}` returns the linear interpolation between these two rows; and the
anchors `T* = 1.00 ↦ 1.439` and `T* = 0.325 ↦ 2.569` hold exactly. -/
theorem collision_integral_lookup_policy :
    (∀ (ops : FloatOps) (m : BinaryMixture), m.t_star ops ≤ 0.30 →
        m.calculate_difusivity_integral ops = 2.662)
  ∧ (∀ (ops : FloatOps) (m : BinaryMixture), 90 < m.t_star ops →
        m.calculate_difusivity_integral ops = 0.5256)
  ∧ (∀ (ops : FloatOps) (m : BinaryMixture) (i : ℕ) (hi : i + 1 < table_index.length),
        (table_index[i]).1 < m.t_star ops → m.t_star ops ≤ (table_index[i + 1]).1 →
        m.calculate_difusivity_integral ops =
          (table_index[i]).2 + ((table_index[i + 1]).2 - (table_index[i]).2) *
            (m.t_star ops - (table_index[i]).1) / ((table_index[i + 1]).1 - (table_index[i]).1))
  ∧ (∀ (ops : FloatOps) (m : BinaryMixture), m.t_star ops = 1 →
        m.calculate_difusivity_integral ops = 1.439)
  ∧ (∀ (ops : FloatOps) (m : BinaryMixture), m.t_star ops = 0.325 →
        m.calculate_difusivity_integral ops = 2.569) := by
  refine ⟨fun ops m h => ?_, fun ops m h => ?_, fun ops m i hi hlo hhi => ?_,
    fun ops m h => ?_, fun ops m h => ?_⟩
  · rw [BinaryMixture.calculate_difusivity_integral,
      show table_index = ((0.30 : ℚ), (2.662 : ℚ)) :: table_index.tail from rfl,
      interpolate_scan_hit_none _ _ _ h]
  · rw [BinaryMixture.calculate_difusivity_integral, ← List.append_nil table_index,
      interpolate_scan_append _ _ _ none
        (fun e he => lt_of_le_of_lt (table_le_90 e he) h),
      interpolate_scan_nil]
  · rw [BinaryMixture.calculate_difusivity_integral, interpolate_scan_mid _ i hi hlo hhi]
  · rw [BinaryMixture.calculate_difusivity_integral, h]
    norm_num [interpolate_scan, table_index]
  · rw [BinaryMixture.calculate_difusivity_integral, h]
    norm_num [interpolate_scan, table_index]

/-- C1 witness: a concrete substance pair exercising the low clamp, the high
clamp, a strictly interior interpolation, and both exact anchors. -/
theorem collision_integral_lookup_policy_witness :
    BinaryMixture.calculate_difusivity_integral idOps (binEx 0.1) = 2.662
  ∧ BinaryMixture.calculate_difusivity_integral idOps (binEx 95) = 0.5256
  ∧ BinaryMixture.calculate_difusivity_integral idOps (binEx 0.47) = 2.1368
  ∧ BinaryMixture.calculate_difusivity_integral idOps (binEx 1) = 1.439
  ∧ BinaryMixture.calculate_difusivity_integral idOps (binEx 0.325) = 2.569 := by
  have hts : ∀ T : ℚ, BinaryMixture.t_star idOps (binEx T) = T := fun T => by
    norm_num [BinaryMixture.t_star, binEx, subEx, idOps]
  refine ⟨?_, ?_, ?_, ?_, ?_⟩
  · exact collision_integral_lookup_policy.1 idOps (binEx 0.1) (by rw [hts]; norm_num)
  · exact collision_integral_lookup_policy.2.1 idOps (binEx 95) (by rw [hts]; norm_num)
  · have h := collision_integral_lookup_policy.2.2.1 idOps (binEx 0.47) 3 (by decide)
      (by rw [hts]; exact (by norm_num : (0.45 : ℚ) < 0.47))
      (by rw [hts]; exact (by norm_num : (0.47 : ℚ) ≤ 0.50))
    rw [h, hts]
    exact (by norm_num :
      (2.184 : ℚ) + (2.066 - 2.184) * (0.47 - 0.45) / (0.50 - 0.45) = 2.1368)
  · exact collision_integral_lookup_policy.2.2.2.1 idOps (binEx 1) (hts 1)
  · exact collision_integral_lookup_policy.2.2.2.2 idOps (binEx 0.325) (hts 0.325)

end Difussi
